import Mathlib

/-!
Shallow embedding of `src/kalm_benchmark/evaluation/scanner/trivy.py`.

The module wraps the `trivy` configuration scanner: a static mapping table
(`CHECK_MAPPING`) from trivy rule ids to (category, inspected field paths),
a regex-based extraction of a benchmark check id from object names, a binary
status translator, a result parser flattening the nested raw JSON output, and
a version-string parser.

Conventions of the embedding:
* Python dict subscription `d["k"]` on a possibly-absent key is modelled by
  `getItem`, returning `Except String` (a raised `KeyError` becomes `.error`).
* `dict.get(k, default)` is modelled by `Option.getD`.
* `logger.warning` is modelled by counting emitted warnings (second component
  of `get_checked_path`); logging has no other observable effect here.
* Python `str.split(sep)` with a one-character separator is `splitChar`
  (keeps empty parts, exactly like Python with an explicit separator).
* Character classes `\w` and `\d` of the Python regex are modelled over the
  ASCII range (`Char.isAlphanum`, underscore, `Char.isDigit`); the inputs fed
  to the extractor are ASCII file stems.
-/

/-- Modelled from the spec: the category enumeration provided by the
collaborator module `scanner_evaluator` (not under `src/`); only the tags
used by the trivy mapping table are listed. -/
inductive CheckCategory where
  | Workload
  | Reliability
  | Network
  | IAM
  | DataSecurity
  | AdmissionControl
deriving DecidableEq

/-- Modelled from the spec: the binary status enumeration of the collaborator
module `scanner_evaluator` (not under `src/`); the trivy adapter only ever
produces `Alert` and `Pass`. -/
inductive CheckStatus where
  | Alert
  | Pass
deriving DecidableEq

/-- Modelled from the spec: the normalized result record shape of the
collaborator module `scanner_evaluator` (not under `src/`), with the fields
the trivy adapter fills in (keyword names as in `trivy.py` lines 369-379). -/
structure CheckResult where
  check_id : Option String
  obj_name : String
  scanner_check_id : String
  scanner_check_name : String
  checked_path : String
  severity : String
  got : CheckStatus
  details : String
  extra : String
deriving DecidableEq

/-- The runtime shapes a `CHECK_MAPPING` value's paths component can take in
Python: a plain string or a list of strings (`get_checked_path` dispatches on
these with `isinstance`; the absent case is the `None` default of `dict.get`,
modelled by `Option` around this type). -/
inductive PyPaths where
  | str (s : String)
  | list (l : List String)
deriving DecidableEq

/-- `CHECK_MAPPING` of `trivy.py` lines 8-333, entry for entry. Python dict
with unique keys, embedded as an association list; `dict.get` is
`List.lookup`. Note the fused adjacent string literals in the `KSV002` entry
(source lines 13-14 carry no separating comma), kept verbatim. -/
def CHECK_MAPPING : List (String × CheckCategory × PyPaths) :=
  [ ("KSV001", CheckCategory.Workload, PyPaths.list [".spec.containers[].securityContext.allowPrivilegeEscalation"]),
    ("KSV002",
      CheckCategory.Workload,
      PyPaths.list
        [".metadata.annotations.container.apparmor.security.beta.kubernetes.io.metadata.annotations[container.apparmor.security.beta.kubernetes.io]"]),
    ("KSV003", CheckCategory.Workload, PyPaths.list [".spec.containers[].securityContext.capabilities.drop"]),
    ("KSV004", CheckCategory.Workload, PyPaths.list [".spec.containers[].securityContext.capabilities.drop"]),
    ("KSV005", CheckCategory.Workload, PyPaths.list [".spec.containers[].securityContext.capabilities.add"]),
    ("KSV006", CheckCategory.Workload, PyPaths.list [".spec.volumes[].hostPath.path"]),
    ("KSV007", CheckCategory.Workload, PyPaths.list [".spec.hostAliases"]),
    ("KSV008", CheckCategory.Workload, PyPaths.list [".spec.hostIPC"]),
    ("KSV009", CheckCategory.Workload, PyPaths.list [".spec.hostNetwork"]),
    ("KSV010", CheckCategory.Workload, PyPaths.list [".spec.hostPID"]),
    ("KSV011", CheckCategory.Reliability, PyPaths.list [".spec.containers[].resources.limits.cpu"]),
    ("KSV012",
      CheckCategory.Workload,
      PyPaths.list [".spec.securityContext.runAsNonRoot", ".spec.containers[].securityContext.runAsNonRoot"]),
    ("KSV013", CheckCategory.Workload, PyPaths.list [".spec.containers[].image"]),
    ("KSV014", CheckCategory.Workload, PyPaths.list [".spec.containers[].securityContext.readOnlyRootFilesystem"]),
    ("KSV015", CheckCategory.Reliability, PyPaths.list [".spec.containers[].resources.requests.cpu"]),
    ("KSV016", CheckCategory.Reliability, PyPaths.list [".spec.containers[].resources.requests.memory"]),
    ("KSV017", CheckCategory.Workload, PyPaths.list [".spec.containers[].securityContext.privileged"]),
    ("KSV018", CheckCategory.Reliability, PyPaths.list [".spec.containers[].resources.limits.memory"]),
    ("KSV020", CheckCategory.Workload, PyPaths.list [".spec.containers[].securityContext.runAsUser"]),
    ("KSV021", CheckCategory.Workload, PyPaths.list [".spec.containers[].securityContext.runAsGroup"]),
    ("KSV022", CheckCategory.Workload, PyPaths.list [".spec.containers[].securityContext.capabilities.add"]),
    ("KSV023", CheckCategory.Workload, PyPaths.list [".spec.volumes[].hostPath"]),
    ("KSV024",
      CheckCategory.Workload,
      PyPaths.list [".spec.containers[].ports[].hostPort", ".spec.initContainers[].ports[].hostPort"]),
    ("KSV025",
      CheckCategory.Workload,
      PyPaths.list [".spec.securityContext.seLinuxOptions", ".spec.containers[].securityContext.seLinuxOptions"]),
    ("KSV026", CheckCategory.Workload, PyPaths.list [".spec.securityContext.sysctls[]"]),
    ("KSV027",
      CheckCategory.Workload,
      PyPaths.list [".spec.containers[].securityContext.procMount", ".spec.initContainers[].securityContext.procMount"]),
    ("KSV028", CheckCategory.Workload, PyPaths.list [".spec.volumes[]"]),
    ("KSV116",
      CheckCategory.Workload,
      PyPaths.list
        [".spec.securityContext.fsGRoup",
         ".spec.securityContext.supplementalGroups",
         ".spec.securityContext.runAsGroup",
         ".spec.containers[].securityContext.runAsGroup"]),
    ("KSV030",
      CheckCategory.Workload,
      PyPaths.list
        [".spec.securityContext.seccompProfile.type",
         ".spec.containers[].securityContext.seccompProfile.type",
         ".metadata.annotations[seccomp.security.alpha.kubernetes.io/pod"]),
    ("KSV032", CheckCategory.Workload, PyPaths.list [".spec.containers[].image", ".spec.containers[].name"]),
    ("KSV033", CheckCategory.Workload, PyPaths.list [".spec.containers[].image", ".spec.containers[].name"]),
    ("KSV034", CheckCategory.Workload, PyPaths.list [".spec.containers[].image"]),
    ("KSV035", CheckCategory.Workload, PyPaths.list [".spec.containers[].image", ".spec.containers[].name"]),
    ("KSV036",
      CheckCategory.Workload,
      PyPaths.list
        [".spec.automountServiceAccountToken",
         ".automountServiceAccountToken",
         ".spec.containers[].volumeMounts[].mountPath"]),
    ("KSV037", CheckCategory.Workload, PyPaths.list [".metadata.namespace"]),
    ("KSV038",
      CheckCategory.Network,
      PyPaths.list
        ["NetworkPolicy.spec.podSelector",
         ".spec.podSelector",
         "NetworkPolicy.spec.podSelector.matchLabels",
         "NetworkPolicy.ingress[].from[].namespaceSelector",
         "NetworkPolicy.ingress[].from[].podSelector",
         "NetworkPolicy.egress[].from[].namespaceSelector",
         "NetworkPolicy.egress[].from[].podSelector",
         "NetworkPolicy.spec.policyTypes[]"]),
    ("KSV039",
      CheckCategory.Reliability,
      PyPaths.list
        ["LimitRange.metadata.namespace",
         "LimitRange.spec.limits[].type",
         "LimitRange.spec.limits[].max",
         "LimitRange.spec.limits[].min",
         "LimitRange.spec.limits[].default",
         "LimitRange.spec.limits[].defaultRequest"]),
    ("KSV040",
      CheckCategory.Reliability,
      PyPaths.list
        ["ResourceQuota.metadata.namespace",
         "ResourceQuota.spec.hard.requests.cpu",
         "ResourceQuota.spec.hard.requests.memory",
         "ResourceQuota.spec.hard.limits.cpu",
         "ResourceQuota.spec.hard.limits.memory",
         "ResourceQuota.spec.hard.limits[].defaultRequest"]),
    ("KSV041",
      CheckCategory.IAM,
      PyPaths.list
        ["ClusterRole.rules[].resources", "ClusterRole.rules[].verbs", "Role.rules[].resources", "Role.rules[].verbs"]),
    ("KSV042",
      CheckCategory.IAM,
      PyPaths.list
        ["ClusterRole.rules[].apiGroups",
         "ClusterRole.rules[].resources",
         "ClusterRole.rules[].verbs",
         "Role.rules[].apiGroups",
         "Role.rules[].resources",
         "Role.rules[].verbs"]),
    ("KSV043",
      CheckCategory.IAM,
      PyPaths.list
        ["ClusterRole.rules[].apiGroups",
         "ClusterRole.rules[].resources",
         "ClusterRole.rules[].verbs",
         "Role.rules[].apiGroups",
         "Role.rules[].resources",
         "Role.rules[].verbs"]),
    ("KSV044",
      CheckCategory.IAM,
      PyPaths.list
        ["ClusterRole.rules[].resources", "ClusterRole.rules[].verbs", "Role.rules[].resources", "Role.rules[].verbs"]),
    ("KSV045",
      CheckCategory.IAM,
      PyPaths.list
        ["ClusterRole.rules[].resources", "ClusterRole.rules[].verbs", "Role.rules[].resources", "Role.rules[].verbs"]),
    ("KSV046",
      CheckCategory.IAM,
      PyPaths.list
        ["ClusterRole.rules[].resources", "ClusterRole.rules[].verbs", "Role.rules[].resources", "Role.rules[].verbs"]),
    ("KSV047",
      CheckCategory.IAM,
      PyPaths.list
        ["ClusterRole.rules[].resources", "ClusterRole.rules[].verbs", "Role.rules[].resources", "Role.rules[].verbs"]),
    ("KSV048",
      CheckCategory.IAM,
      PyPaths.list
        ["ClusterRole.rules[].resources", "ClusterRole.rules[].verbs", "Role.rules[].resources", "Role.rules[].verbs"]),
    ("KSV049",
      CheckCategory.IAM,
      PyPaths.list
        ["ClusterRole.rules[].resources", "ClusterRole.rules[].verbs", "Role.rules[].resources", "Role.rules[].verbs"]),
    ("KSV050",
      CheckCategory.IAM,
      PyPaths.list
        ["ClusterRole.rules[].resources", "ClusterRole.rules[].verbs", "Role.rules[].resources", "Role.rules[].verbs"]),
    ("KSV051",
      CheckCategory.IAM,
      PyPaths.list
        ["ClusterRole.rules[].apiGroups",
         "ClusterRole.rules[].resources",
         "ClusterRole.rules[].verbs",
         "ClusterRole.rules[].resourceNames",
         "Role.rules[].apiGroups",
         "Role.rules[].resources",
         "Role.rules[].verbs",
         "Role.rules[].resourceNames"]),
    ("KSV052",
      CheckCategory.IAM,
      PyPaths.list
        ["ClusterRole.rules[].apiGroups",
         "ClusterRole.rules[].resources",
         "ClusterRole.rules[].verbs",
         "ClusterRole.rules[].resourceNames",
         "Role.rules[].apiGroups",
         "Role.rules[].resources",
         "Role.rules[].verbs",
         "Role.rules[].resourceNames"]),
    ("KSV053",
      CheckCategory.IAM,
      PyPaths.list
        ["ClusterRole.rules[].apiGroups",
         "ClusterRole.rules[].resources",
         "ClusterRole.rules[].verbs",
         "Role.rules[].apiGroups",
         "Role.rules[].resources",
         "Role.rules[].verbs"]),
    ("KSV054",
      CheckCategory.IAM,
      PyPaths.list
        ["ClusterRole.rules[].apiGroups",
         "ClusterRole.rules[].resources",
         "ClusterRole.rules[].verbs",
         "Role.rules[].apiGroups",
         "Role.rules[].resources",
         "Role.rules[].verbs"]),
    ("KSV055",
      CheckCategory.IAM,
      PyPaths.list
        ["ClusterRole.rules[].apiGroups",
         "ClusterRole.rules[].resources",
         "ClusterRole.rules[].verbs",
         "Role.rules[].apiGroups",
         "Role.rules[].resources",
         "Role.rules[].verbs"]),
    ("KSV056",
      CheckCategory.IAM,
      PyPaths.list
        ["ClusterRole.rules[].resources", "ClusterRole.rules[].verbs", "Role.rules[].resources", "Role.rules[].verbs"]),
    ("KSV102", CheckCategory.Workload, PyPaths.list [".metadata.name", ".spec.containers[].image"]),
    ("KSV104",
      CheckCategory.Workload,
      PyPaths.list
        [".spec.securityContext.seccompProfile.type",
         ".spec.containers[].securityContext.seccompProfile.type",
         ".metadata.annotations[seccomp.security.alpha.kubernetes.io/pod"]),
    ("KSV105",
      CheckCategory.AdmissionControl,
      PyPaths.list [".spec.securityContext.runAsUser", ".spec.containers[].securityContext.runAsUser"]),
    ("KSV106",
      CheckCategory.AdmissionControl,
      PyPaths.list
        [".spec.containers[].securityContext.capabilities.drop", ".spec.containers[].securityContext.capabilities.add"]),
    ("KSV111",
      CheckCategory.IAM,
      PyPaths.list ["ClusterRoleBinding.roleRef.name", "RoleBinding.roleRef.name"]),
    ("KSV112",
      CheckCategory.IAM,
      PyPaths.list
        ["ClusterRole.rules[].apiGroups",
         "ClusterRole.rules[].resources",
         "ClusterRole.rules[].verbs",
         "Role.rules[].apiGroups",
         "Role.rules[].resources",
         "Role.rules[].verbs"]),
    ("KSV113",
      CheckCategory.IAM,
      PyPaths.list
        ["ClusterRole.rules[].apiGroups",
         "ClusterRole.rules[].resources",
         "ClusterRole.rules[].verbs",
         "Role.rules[].apiGroups",
         "Role.rules[].resources",
         "Role.rules[].verbs"]),
    ("KSV119", CheckCategory.Workload, PyPaths.list [".spec.containers[].securityContext.capabilities.add"]),
    ("KSV120", CheckCategory.Workload, PyPaths.list [".spec.containers[].securityContext.capabilities.add"]),
    ("KSV121", CheckCategory.Workload, PyPaths.list [".spec.volumes[].hostPath.path"]),
    ("AVD-KSV-0109", CheckCategory.DataSecurity, PyPaths.list ["ConfigMap.data"]),
    ("AVD-KSV-01010", CheckCategory.DataSecurity, PyPaths.list ["ConfigMap.data"]) ]

/-- Python `sep.flatten(parts)` for a list of strings. -/
def pyJoin (sep : String) : List String → String
  | [] => ""
  | [x] => x
  | x :: xs => x ++ sep ++ pyJoin sep xs

/-- The `isinstance` dispatch of `get_checked_path` (`trivy.py` lines
391-401) on the paths value obtained from `CHECK_MAPPING.get`: a plain string
is returned as is, a list is joined with `|`, and `None` (key absent) yields
the empty string after one `logger.warning`. The returned pair is
(result string, number of warnings emitted). -/
def resolve_paths : Option PyPaths → String × Nat
  | some (PyPaths.str s) => (s, 0)
  | some (PyPaths.list l) => (pyJoin "|" l, 0)
  | none => ("", 1)

/-- `Scanner.get_checked_path` (`trivy.py` lines 384-401). -/
def get_checked_path (check_id : String) : String × Nat :=
  resolve_paths ((List.lookup check_id CHECK_MAPPING).map (fun e => e.2))

/-- The status translation of `trivy.py` line 365:
`CheckStatus.Alert if misconfig["Status"] == "FAIL" else CheckStatus.Pass`. -/
def statusOf (status : String) : CheckStatus :=
  if status = "FAIL" then CheckStatus.Alert else CheckStatus.Pass

/-- Split a character list at every character satisfying `p`, keeping empty
parts: the semantics of Python `str.split(sep)` with an explicit separator,
generalised to a predicate. Always returns at least one part. -/
def splitPred (p : Char → Bool) : List Char → List (List Char)
  | [] => [[]]
  | c :: rest =>
    let r := splitPred p rest
    if p c then [] :: r
    else
      match r with
      | h :: t => (c :: h) :: t
      | [] => [[c]]

/-- Python `str.split(sep)` for a one-character separator `sep`. -/
def splitChar (sep : Char) (cs : List Char) : List (List Char) :=
  splitPred (fun c => c = sep) cs

/-- The name of a POSIX `pathlib.Path`: the last path component, with empty
and `.` components dropped. -/
def pathName (target : String) : String :=
  String.mk ((((splitChar '/' target.toList).filter
    (fun comp => !comp.isEmpty && comp ≠ ['.']))).getLastD [])

/-- Index of the last `.` in a character list, if any (Python `str.rfind`). -/
def lastDotIdx (cs : List Char) : Option Nat :=
  ((cs.enum.filter (fun p => p.2 = '.')).map (fun p => p.1)).getLast?

/-- `pathlib.PurePath.stem`: the name without its suffix, where the suffix is
`name[i:]` for `i` the index of the last dot whenever `0 < i < len(name) - 1`
and empty otherwise (CPython's definition). -/
def pathStem (target : String) : String :=
  let name := (pathName target).toList
  match lastDotIdx name with
  | some k => if 0 < k ∧ k < name.length - 1 then String.mk (name.take k) else String.mk name
  | none => String.mk name

/-- `Scanner.get_version` (`trivy.py` lines 403-411) applied to the raw text
returned by the base class: take the first line (`raw_version.split("\n")`
followed by star-unpacking of the head, which always exists), then unpack
`version_line.split(" ")` into exactly two names; any other part count makes
the tuple-unpacking raise `ValueError`, which propagates to the caller. -/
def get_version (raw_version : String) : Except String String :=
  match splitChar ' ' ((splitChar '\n' raw_version.toList).headD []) with
  | [_, version] => Except.ok (String.mk version)
  | _ => Except.error "ValueError: not exactly two values to unpack"

/-- Modelled from the spec: the spec's reading of the version contract speaks
of "exactly two whitespace-delimited tokens" of the first line; this is the
standard whitespace tokenization (Python `str.split()` with no argument),
written here only to be compared against what the code does. -/
def spec_whitespace_tokens (line : String) : List String :=
  ((splitPred (fun c => c.isWhitespace) line.toList).filter
    (fun t => !t.isEmpty)).map String.mk

/-- Python regex `\w` (ASCII range): letters, digits, underscore. -/
def isWordChar (c : Char) : Bool := c.isAlphanum || c = '_'

/-- One transition of the deterministic automaton for the anchored pattern
`\w+(?:-\d+)+` of `trivy.py` line 355. States: 0 = nothing read yet,
1 = inside the leading word-character run, 2 = just read a `-` and a digit is
required, 3 = inside a digit run (the only accepting state). `none` is the
dead state: once a character fits no transition, no longer prefix matches. -/
def stepDFA (st : Nat) (c : Char) : Option Nat :=
  if st = 0 then (if isWordChar c then some 1 else none)
  else if st = 1 then
    (if isWordChar c then some 1 else if c = '-' then some 2 else none)
  else if st = 2 then (if c.isDigit then some 3 else none)
  else (if c.isDigit then some 3 else if c = '-' then some 2 else none)

/-- Whether the automaton accepts exactly the given character list starting
from state `st`: from state 0 this decides membership in the language of
`\w+(?:-\d+)+`. -/
def shapeDFA : List Char → Nat → Bool
  | [], st => st == 3
  | c :: rest, st =>
    match stepDFA st c with
    | some st2 => shapeDFA rest st2
    | none => false

/-- Runner for the anchored search: walk the input keeping the length of the
longest accepted prefix seen so far (`best`), abandoning the walk at the dead
state. `pos` is the number of characters already consumed. -/
def searchAux : List Char → Nat → Nat → Option Nat → Option Nat
  | [], _, _, best => best
  | c :: rest, st, pos, best =>
    match stepDFA st c with
    | some st2 => searchAux rest st2 (pos + 1) (if st2 == 3 then some (pos + 1) else best)
    | none => best

/-- `check_id_pattern.search(obj_name)` followed by `m.group(1) if m is not
None else None` (`trivy.py` lines 355, 362-363). The Python regex engine's
greedy, anchored match of `^(\w+(?:-\d+)+)` returns the longest prefix in the
pattern's language: both quantified pieces are forced (`\w` excludes `-`, and
`\d` excludes `-`, so backtracking to a shorter `\w+` run or digit run can
never enable a later transition), hence the greedy match and the longest
accepted prefix coincide, which is what the automaton runner computes. -/
def check_id_search (obj_name : String) : Option String :=
  match searchAux obj_name.toList 0 0 none with
  | some n => some (String.mk (obj_name.toList.take n))
  | none => none

/-- A raw trivy finding (one element of a file entry's `Misconfigurations`
list). Each field is optional because the Python side reads them from a JSON
dict, where any key may be absent; `misconfig["K"]` raises on absence. -/
structure RawMisconfig where
  ID : Option String
  Title : Option String
  Status : Option String
  Severity : Option String
  Description : Option String
  Message : Option String
deriving DecidableEq

/-- A raw per-file entry of the trivy output (`Results` list element). -/
structure RawFileResult where
  Target : Option String
  Misconfigurations : Option (List RawMisconfig)
deriving DecidableEq

/-- The raw top-level trivy output object. -/
structure RawResults where
  Results : Option (List RawFileResult)
deriving DecidableEq

/-- Python dict subscription `d[key]`: the value when the key is present, a
raised `KeyError` otherwise. -/
def getItem {α : Type} (key : String) : Option α → Except String α
  | some v => Except.ok v
  | none => Except.error ("KeyError: " ++ key)

/-- The body of the inner loop of `Scanner.parse_results` (`trivy.py` lines
360-380) for one finding: every dict subscription in source order (`Target`
on line 360; `Status` line 365; `ID` line 366 as the `get_checked_path`
argument; then the constructor keyword arguments of line 369-379 left to
right: `ID`, `Title`, `Severity`, `Description`, `Message`). -/
def parse_misconfig (result : RawFileResult) (misconfig : RawMisconfig) :
    Except String CheckResult := do
  let target ← getItem "Target" result.Target
  let obj_name := pathStem target
  let check_id := check_id_search obj_name
  let rawStatus ← getItem "Status" misconfig.Status
  let status := statusOf rawStatus
  let idForPath ← getItem "ID" misconfig.ID
  let checked_path := (get_checked_path idForPath).1
  let scanner_check_id ← getItem "ID" misconfig.ID
  let scanner_check_name ← getItem "Title" misconfig.Title
  let severity ← getItem "Severity" misconfig.Severity
  let details ← getItem "Description" misconfig.Description
  let extra ← getItem "Message" misconfig.Message
  pure
    { check_id := check_id
      obj_name := obj_name
      scanner_check_id := scanner_check_id
      scanner_check_name := scanner_check_name
      checked_path := checked_path
      severity := severity
      got := status
      details := details
      extra := extra }

/-- The inner loop of `Scanner.parse_results` over one file entry's findings
(`for misconfig in result.get("Misconfigurations", [])`), appending one
record per finding; the first raised `KeyError` aborts the whole call. -/
def parse_file_aux (result : RawFileResult) :
    List RawMisconfig → Except String (List CheckResult)
  | [] => Except.ok []
  | m :: ms => do
    let r ← parse_misconfig result m
    let rest ← parse_file_aux result ms
    pure (r :: rest)

/-- One file entry of `Scanner.parse_results`: `result.get("Misconfigurations",
[])` defaults an absent key to the empty list (`trivy.py` line 359). -/
def parse_file (result : RawFileResult) : Except String (List CheckResult) :=
  parse_file_aux result (result.Misconfigurations.getD [])

/-- The outer loop of `Scanner.parse_results` over `results["Results"]`. -/
def parse_results_aux : List RawFileResult → Except String (List CheckResult)
  | [] => Except.ok []
  | f :: fs => do
    let here ← parse_file f
    let rest ← parse_results_aux fs
    pure (here ++ rest)

/-- `Scanner.parse_results` (`trivy.py` lines 346-382): subscribe the
top-level `Results` key (raising on absence), then flatten the per-file
findings in encounter order into `check_results`. -/
def parse_results (results : RawResults) : Except String (List CheckResult) := do
  let files ← getItem "Results" results.Results
  parse_results_aux files

/-- The record `parse_misconfig` produces when every accessed key is present,
written with `getD` defaults so it is total; `parse_misconfig` agrees with it
exactly on successful runs. -/
def recordOf (f : RawFileResult) (m : RawMisconfig) : CheckResult :=
  { check_id := check_id_search (pathStem (f.Target.getD ""))
    obj_name := pathStem (f.Target.getD "")
    scanner_check_id := m.ID.getD ""
    scanner_check_name := m.Title.getD ""
    checked_path := (get_checked_path (m.ID.getD "")).1
    severity := m.Severity.getD ""
    got := statusOf (m.Status.getD "")
    details := m.Description.getD ""
    extra := m.Message.getD "" }

/-- All six finding-level keys subscripted by the parser are present. -/
def misconfigWF (m : RawMisconfig) : Bool :=
  m.ID.isSome && m.Title.isSome && m.Status.isSome && m.Severity.isSome &&
    m.Description.isSome && m.Message.isSome

/-- A file entry the parser can process without raising: `Target` is present
whenever there is at least one finding, and every finding is well-formed. -/
def fileWF (f : RawFileResult) : Bool :=
  ((f.Misconfigurations.getD []).isEmpty || f.Target.isSome) &&
    (f.Misconfigurations.getD []).all misconfigWF

/-- A raw input the parser can process without raising. -/
def resultsWF (rs : RawResults) : Bool :=
  rs.Results.isSome && (rs.Results.getD []).all fileWF

theorem parse_misconfig_ok {f : RawFileResult} {m : RawMisconfig} {r : CheckResult}
    (h : parse_misconfig f m = Except.ok r) : r = recordOf f m := by
  obtain ⟨tgt, mis⟩ := f
  obtain ⟨i, ti, st, sev, de, me⟩ := m
  cases tgt <;> cases st <;> cases i <;> cases ti <;> cases sev <;> cases de <;> cases me <;>
    first
      | exact Except.noConfusion h
      | exact (Except.ok.inj h).symm

theorem parse_misconfig_ok_of_wf {f : RawFileResult} {m : RawMisconfig}
    (hT : f.Target.isSome = true) (hm : misconfigWF m = true) :
    parse_misconfig f m = Except.ok (recordOf f m) := by
  obtain ⟨tgt, mis⟩ := f
  obtain ⟨i, ti, st, sev, de, me⟩ := m
  cases tgt
  · exact absurd hT (by simp)
  · cases st <;> cases i <;> cases ti <;> cases sev <;> cases de <;> cases me <;>
      first
        | rfl
        | exact absurd hm (by simp [misconfigWF])

theorem parse_misconfig_error_of_not_wf {f : RawFileResult} {m : RawMisconfig}
    (hm : misconfigWF m = false) : ∃ e, parse_misconfig f m = Except.error e := by
  obtain ⟨tgt, mis⟩ := f
  obtain ⟨i, ti, st, sev, de, me⟩ := m
  cases tgt <;> cases st <;> cases i <;> cases ti <;> cases sev <;> cases de <;> cases me <;>
    first
      | exact ⟨_, rfl⟩
      | exact absurd hm (by simp [misconfigWF])

theorem parse_file_aux_ok {f : RawFileResult} {ms : List RawMisconfig}
    {out : List CheckResult} (h : parse_file_aux f ms = Except.ok out) :
    out = ms.map (recordOf f) := by
  induction ms generalizing out with
  | nil =>
    simp only [parse_file_aux] at h
    rw [← Except.ok.inj h]
    rfl
  | cons m ms ih =>
    simp only [parse_file_aux] at h
    cases hr : parse_misconfig f m with
    | error e => rw [hr] at h; exact Except.noConfusion h
    | ok r =>
      rw [hr] at h
      cases hrest : parse_file_aux f ms with
      | error e => rw [hrest] at h; exact Except.noConfusion h
      | ok l =>
        rw [hrest] at h
        have h3 : r :: l = out := Except.ok.inj h
        rw [← h3, parse_misconfig_ok hr, ih hrest, List.map_cons]

theorem parse_file_aux_ok_of_wf {f : RawFileResult} {ms : List RawMisconfig}
    (hT : f.Target.isSome = true) (hms : ∀ m ∈ ms, misconfigWF m = true) :
    parse_file_aux f ms = Except.ok (ms.map (recordOf f)) := by
  induction ms with
  | nil => rfl
  | cons m ms ih =>
    have h1 := parse_misconfig_ok_of_wf hT (hms m (List.mem_cons_self m ms))
    have h2 := ih (fun x hx => hms x (List.mem_cons_of_mem m hx))
    simp only [parse_file_aux, h1, h2, List.map_cons]
    rfl

theorem parse_file_aux_ok_target {f : RawFileResult} {m : RawMisconfig}
    {ms : List RawMisconfig} {out : List CheckResult}
    (h : parse_file_aux f (m :: ms) = Except.ok out) : f.Target.isSome = true := by
  obtain ⟨tgt, mis⟩ := f
  cases tgt with
  | none => exact Except.noConfusion h
  | some t => rfl

theorem parse_file_ok_of_wf {f : RawFileResult} (hf : fileWF f = true) :
    parse_file f = Except.ok ((f.Misconfigurations.getD []).map (recordOf f)) := by
  simp only [fileWF, Bool.and_eq_true, Bool.or_eq_true, List.all_eq_true] at hf
  obtain ⟨h1, h2⟩ := hf
  unfold parse_file
  cases hms : f.Misconfigurations.getD [] with
  | nil => rfl
  | cons m ms =>
    have hT : f.Target.isSome = true := by
      rcases h1 with hE | hS
      · rw [hms] at hE; exact absurd hE (by simp)
      · exact hS
    exact parse_file_aux_ok_of_wf hT (fun x hx => h2 x (by rw [hms]; exact hx))

theorem parse_results_aux_ok {files : List RawFileResult} {out : List CheckResult}
    (h : parse_results_aux files = Except.ok out) :
    out = (files.map (fun f => (f.Misconfigurations.getD []).map (recordOf f))).flatten := by
  induction files generalizing out with
  | nil =>
    simp only [parse_results_aux] at h
    rw [← Except.ok.inj h]
    rfl
  | cons f fs ih =>
    simp only [parse_results_aux] at h
    cases hf : parse_file f with
    | error e => rw [hf] at h; exact Except.noConfusion h
    | ok l =>
      rw [hf] at h
      cases hrest : parse_results_aux fs with
      | error e => rw [hrest] at h; exact Except.noConfusion h
      | ok l2 =>
        rw [hrest] at h
        have h3 : l ++ l2 = out := Except.ok.inj h
        have hf' : parse_file_aux f (f.Misconfigurations.getD []) = Except.ok l := hf
        rw [← h3, parse_file_aux_ok hf', ih hrest, List.map_cons, List.flatten_cons]

theorem parse_results_aux_ok_mem {files : List RawFileResult} {out : List CheckResult}
    (h : parse_results_aux files = Except.ok out) :
    ∀ f ∈ files, ∃ l, parse_file f = Except.ok l := by
  induction files generalizing out with
  | nil => intro f hf; exact absurd hf (List.not_mem_nil f)
  | cons g fs ih =>
    simp only [parse_results_aux] at h
    cases hg : parse_file g with
    | error e => rw [hg] at h; exact Except.noConfusion h
    | ok l =>
      rw [hg] at h
      cases hrest : parse_results_aux fs with
      | error e => rw [hrest] at h; exact Except.noConfusion h
      | ok l2 =>
        intro f hmem
        rcases List.mem_cons.mp hmem with rfl | hmem2
        · exact ⟨l, hg⟩
        · exact ih hrest f hmem2

theorem parse_results_aux_ok_of_wf {files : List RawFileResult}
    (h : ∀ f ∈ files, fileWF f = true) :
    parse_results_aux files =
      Except.ok ((files.map (fun f => (f.Misconfigurations.getD []).map (recordOf f))).flatten) := by
  induction files with
  | nil => rfl
  | cons f fs ih =>
    have hf := parse_file_ok_of_wf (h f (List.mem_cons_self f fs))
    have hrest := ih (fun x hx => h x (List.mem_cons_of_mem f hx))
    simp only [parse_results_aux, hf, hrest, List.map_cons, List.flatten_cons]
    rfl

theorem parse_results_ok {rs : RawResults} {out : List CheckResult}
    (h : parse_results rs = Except.ok out) :
    ∃ files, rs.Results = some files ∧
      out = (files.map (fun f => (f.Misconfigurations.getD []).map (recordOf f))).flatten ∧
      parse_results_aux files = Except.ok out := by
  rcases hR : rs.Results with _ | files
  · unfold parse_results at h; rw [hR] at h; exact Except.noConfusion h
  · unfold parse_results at h
    rw [hR] at h
    have h' : parse_results_aux files = Except.ok out := h
    exact ⟨files, rfl, parse_results_aux_ok h', h'⟩

theorem parse_results_ok_of_wf {rs : RawResults} (h : resultsWF rs = true) :
    parse_results rs =
      Except.ok (((rs.Results.getD []).map
        (fun f => (f.Misconfigurations.getD []).map (recordOf f))).flatten) := by
  simp only [resultsWF, Bool.and_eq_true, List.all_eq_true] at h
  obtain ⟨h1, h2⟩ := h
  rcases hR : rs.Results with _ | files
  · rw [hR] at h1; exact absurd h1 (by simp)
  · unfold parse_results
    rw [hR]
    exact parse_results_aux_ok_of_wf (fun f hf => h2 f (by rw [hR]; exact hf))

/-- Concrete input for the C2 counterexample: `ID`, `Status` and `Title` are
present, `Severity` is absent; per the claim the record should still be
emitted, but the subscription `misconfig["Severity"]` raises. -/
def c2_missing_severity : RawResults :=
  RawResults.mk (some
    [RawFileResult.mk (some "KSV017-test.yaml") (some
      [RawMisconfig.mk (some "KSV017") (some "t") (some "FAIL") none (some "d") (some "m")])])

/-- C2 counterexample: a finding whose `Severity` key is absent (with the
scanner-native id and the status both present) makes `parse_results` raise a
`KeyError` instead of emitting the finding's normalized record, refuting the
claim that severity/description/message may be absent without aborting. -/
theorem trivy_c2_counterexample :
    parse_results c2_missing_severity = Except.error "KeyError: Severity" := rfl

/-- C2 (amended): a finding whose severity, description, or message field is
present but empty is still emitted; however the parser assumes all six
finding keys (`ID`, `Title`, `Status`, `Severity`, `Description`, `Message`)
present — when any of them is absent the record is not emitted and a lookup
error propagates, aborting the call. -/
theorem trivy_c2_amended :
    (∀ rs : RawResults, resultsWF rs = true →
       ∃ out, parse_results rs = Except.ok out ∧
         out.length =
           ((rs.Results.getD []).map
             (fun f => (f.Misconfigurations.getD []).length)).sum) ∧
    (∀ (f : RawFileResult) (m : RawMisconfig), misconfigWF m = false →
       ∃ e, parse_misconfig f m = Except.error e) := by
  constructor
  · intro rs h
    refine ⟨_, parse_results_ok_of_wf h, ?_⟩
    rw [List.length_flatten]
    simp only [List.map_map, Function.comp_def, List.length_map]
  · intro f m hm
    exact parse_misconfig_error_of_not_wf hm

/-- Concrete input for the C2 witness: all six finding keys present, with
empty-string severity, description and message. -/
def c2_empty_fields : RawResults :=
  RawResults.mk (some
    [RawFileResult.mk (some "KSV017-test.yaml") (some
      [RawMisconfig.mk (some "KSV017") (some "t") (some "FAIL") (some "") (some "") (some "")])])

/-- C2 witness: the amended theorem applied at a concrete record with empty
optional fields, and at a concrete record with an absent `Title`. -/
theorem trivy_c2_witness :
    (∃ out, parse_results c2_empty_fields = Except.ok out ∧
       out.length =
         ((c2_empty_fields.Results.getD []).map
           (fun f => (f.Misconfigurations.getD []).length)).sum) ∧
    (∃ e, parse_misconfig (RawFileResult.mk (some "a.yaml") none)
       (RawMisconfig.mk (some "KSV001") none (some "FAIL") (some "") (some "") (some "")) =
         Except.error e) :=
  ⟨trivy_c2_amended.1 c2_empty_fields (by decide),
   trivy_c2_amended.2 (RawFileResult.mk (some "a.yaml") none)
     (RawMisconfig.mk (some "KSV001") none (some "FAIL") (some "") (some "") (some ""))
     (by decide)⟩

/-- C3: on every successful run, `parse_results` emits exactly one normalized
record per input finding — the output is the in-order flattening of the
per-file, per-finding records (file order, then finding order within each
file; an absent `Misconfigurations` key contributes zero records via the
empty-list default), and the output length is the sum of the finding counts
over all file entries. -/
theorem trivy_c3_cardinality_and_order :
    ∀ (rs : RawResults) (out : List CheckResult), parse_results rs = Except.ok out →
      ∃ files, rs.Results = some files ∧
        out = (files.map (fun f => (f.Misconfigurations.getD []).map (recordOf f))).flatten ∧
        out.length = (files.map (fun f => (f.Misconfigurations.getD []).length)).sum := by
  intro rs out h
  obtain ⟨files, hR, hout, -⟩ := parse_results_ok h
  refine ⟨files, hR, hout, ?_⟩
  rw [hout, List.length_flatten]
  simp only [List.map_map, Function.comp_def, List.length_map]

/-- Concrete input for the C3 witness: two file entries, the first with two
findings, the second without a `Misconfigurations` key. -/
def c3_two_files : RawResults :=
  RawResults.mk (some
    [RawFileResult.mk (some "POD-001-1.yaml") (some
      [RawMisconfig.mk (some "KSV001") (some "t1") (some "FAIL") (some "HIGH") (some "d1") (some "m1"),
       RawMisconfig.mk (some "KSV017") (some "t2") (some "PASS") (some "LOW") (some "d2") (some "m2")]),
     RawFileResult.mk (some "empty.yaml") none])

/-- C3 witness: the theorem applied at a concrete two-file input whose second
file entry has no findings. -/
theorem trivy_c3_witness :
    ∃ files, c3_two_files.Results = some files ∧
      (recordOf (RawFileResult.mk (some "POD-001-1.yaml") (some
          [RawMisconfig.mk (some "KSV001") (some "t1") (some "FAIL") (some "HIGH") (some "d1") (some "m1"),
           RawMisconfig.mk (some "KSV017") (some "t2") (some "PASS") (some "LOW") (some "d2") (some "m2")]))
        (RawMisconfig.mk (some "KSV001") (some "t1") (some "FAIL") (some "HIGH") (some "d1") (some "m1")) ::
       recordOf (RawFileResult.mk (some "POD-001-1.yaml") (some
          [RawMisconfig.mk (some "KSV001") (some "t1") (some "FAIL") (some "HIGH") (some "d1") (some "m1"),
           RawMisconfig.mk (some "KSV017") (some "t2") (some "PASS") (some "LOW") (some "d2") (some "m2")]))
        (RawMisconfig.mk (some "KSV017") (some "t2") (some "PASS") (some "LOW") (some "d2") (some "m2")) :: []) =
        (files.map (fun f => (f.Misconfigurations.getD []).map (recordOf f))).flatten ∧
      ([recordOf (RawFileResult.mk (some "POD-001-1.yaml") (some
          [RawMisconfig.mk (some "KSV001") (some "t1") (some "FAIL") (some "HIGH") (some "d1") (some "m1"),
           RawMisconfig.mk (some "KSV017") (some "t2") (some "PASS") (some "LOW") (some "d2") (some "m2")]))
        (RawMisconfig.mk (some "KSV001") (some "t1") (some "FAIL") (some "HIGH") (some "d1") (some "m1")),
        recordOf (RawFileResult.mk (some "POD-001-1.yaml") (some
          [RawMisconfig.mk (some "KSV001") (some "t1") (some "FAIL") (some "HIGH") (some "d1") (some "m1"),
           RawMisconfig.mk (some "KSV017") (some "t2") (some "PASS") (some "LOW") (some "d2") (some "m2")]))
        (RawMisconfig.mk (some "KSV017") (some "t2") (some "PASS") (some "LOW") (some "d2") (some "m2"))] :
          List CheckResult).length =
        (files.map (fun f => (f.Misconfigurations.getD []).length)).sum :=
  trivy_c3_cardinality_and_order c3_two_files _ rfl

/-- C4: the status translator maps exactly the string `"FAIL"` to `Alert` and
every other string to `Pass`; no third outcome exists. -/
theorem trivy_c4_status_translator :
    (∀ s : String, s = "FAIL" → statusOf s = CheckStatus.Alert) ∧
    (∀ s : String, s ≠ "FAIL" → statusOf s = CheckStatus.Pass) ∧
    (∀ s : String, statusOf s = CheckStatus.Alert ∨ statusOf s = CheckStatus.Pass) := by
  refine ⟨?_, ?_, ?_⟩
  · intro s hs
    simp [statusOf, hs]
  · intro s hs
    simp [statusOf, hs]
  · intro s
    by_cases hs : s = "FAIL" <;> simp [statusOf, hs]

/-- C4 witness: the translator theorem applied at the concrete strings of the
claim. -/
theorem trivy_c4_witness :
    statusOf "FAIL" = CheckStatus.Alert ∧ statusOf "PASS" = CheckStatus.Pass ∧
      statusOf "" = CheckStatus.Pass ∧ statusOf "WARN" = CheckStatus.Pass :=
  ⟨trivy_c4_status_translator.1 "FAIL" rfl,
   trivy_c4_status_translator.2.1 "PASS" (by decide),
   trivy_c4_status_translator.2.1 "" (by decide),
   trivy_c4_status_translator.2.1 "WARN" (by decide)⟩

/-- C5: for a scanner-native rule id absent from `CHECK_MAPPING`,
`get_checked_path` returns the empty string and emits exactly one warning
diagnostic; for a present id it emits none. The Lean model is a total
function, mirroring that the lookup path (`dict.get` with a default,
`isinstance`, `join`) cannot raise for any input string. -/
theorem trivy_c5_unmapped_check :
    (∀ check_id : String, List.lookup check_id CHECK_MAPPING = none →
       get_checked_path check_id = ("", 1)) ∧
    (∀ check_id : String, List.lookup check_id CHECK_MAPPING ≠ none →
       (get_checked_path check_id).2 = 0) := by
  constructor
  · intro id h
    unfold get_checked_path
    rw [h]
    rfl
  · intro id h
    unfold get_checked_path
    rcases hl : List.lookup id CHECK_MAPPING with _ | ⟨cat, paths⟩
    · exact absurd hl h
    · cases paths with
      | str s => rfl
      | list l => rfl

/-- C5 witness: the id `"KSV029"` (renumbered to `KSV116` in the table) is
absent and degrades to the empty string with one warning; the present id
`"KSV017"` emits no warning. -/
theorem trivy_c5_witness :
    get_checked_path "KSV029" = ("", 1) ∧ (get_checked_path "KSV017").2 = 0 :=
  ⟨trivy_c5_unmapped_check.1 "KSV029" (by decide),
   trivy_c5_unmapped_check.2 "KSV017" (by decide)⟩

/-- C6: a table entry holding a list of paths is rendered as the paths joined
with the `|` delimiter in declared order (for example `["a", "b"]` becomes
`"a|b"`), and an entry holding a single scalar string is returned unchanged
(no entry of the current table has that legacy shape, so the scalar branch is
stated on the resolver's dispatch itself). -/
theorem trivy_c6_path_joining :
    (∀ (check_id : String) (cat : CheckCategory) (ps : List String),
       List.lookup check_id CHECK_MAPPING = some (cat, PyPaths.list ps) →
       get_checked_path check_id = (pyJoin "|" ps, 0)) ∧
    (∀ s : String, resolve_paths (some (PyPaths.str s)) = (s, 0)) ∧
    resolve_paths (some (PyPaths.list ["a", "b"])) = ("a|b", 0) := by
  refine ⟨?_, fun s => rfl, rfl⟩
  intro id cat ps h
  unfold get_checked_path
  rw [h]
  rfl

/-- C6 witness: the joining theorem applied at the two-path entry
`"KSV012"`. -/
theorem trivy_c6_witness :
    get_checked_path "KSV012" =
      (pyJoin "|" [".spec.securityContext.runAsNonRoot",
        ".spec.containers[].securityContext.runAsNonRoot"], 0) :=
  trivy_c6_path_joining.1 "KSV012" CheckCategory.Workload
    [".spec.securityContext.runAsNonRoot", ".spec.containers[].securityContext.runAsNonRoot"]
    (by decide)

/-- C7 counterexample: the first line `"Version:\t0.45.0"` consists of
exactly two whitespace-delimited tokens (the spec's stated precondition for
returning the second token), yet `get_version` raises, because the code
splits on the single space character, not on whitespace. This refutes both
directions of the claim's "if and only if". -/
theorem trivy_c7_counterexample :
    spec_whitespace_tokens "Version:\t0.45.0" = ["Version:", "0.45.0"] ∧
      get_version "Version:\t0.45.0" =
        Except.error "ValueError: not exactly two values to unpack" :=
  ⟨rfl, rfl⟩

/-- C7 (amended): `get_version` takes the first line of the version-command
text and splits it on the single space character (not on general
whitespace); when that split yields exactly two parts it returns the second,
and when it yields any other number of parts a `ValueError` propagates to the
caller — it never guesses or truncates. `"Version: 0.45.0\n..."` yields
`"0.45.0"`. -/
theorem trivy_c7_amended :
    get_version "Version: 0.45.0\nVulnerability DB: 2" = Except.ok "0.45.0" ∧
    (∀ (raw : String) (l v : List Char),
       splitChar ' ' ((splitChar '\n' raw.toList).headD []) = [l, v] →
       get_version raw = Except.ok (String.mk v)) ∧
    (∀ raw : String,
       (splitChar ' ' ((splitChar '\n' raw.toList).headD [])).length ≠ 2 →
       ∃ e, get_version raw = Except.error e) := by
  refine ⟨rfl, ?_, ?_⟩
  · intro raw l v h
    unfold get_version
    rw [h]
  · intro raw h
    unfold get_version
    rcases hsp : splitChar ' ' ((splitChar '\n' raw.toList).headD []) with _ | ⟨a, _ | ⟨b, _ | ⟨c, t⟩⟩⟩
    · exact ⟨_, rfl⟩
    · exact ⟨_, rfl⟩
    · rw [hsp] at h
      exact absurd rfl h
    · exact ⟨_, rfl⟩

/-- C7 witness: the amended theorem applied at a well-formed version text and
at a first line with two consecutive spaces (three parts, hence an error). -/
theorem trivy_c7_witness :
    get_version "Version: 1.2.3" = Except.ok (String.mk ['1', '.', '2', '.', '3']) ∧
      (∃ e, get_version "Version:  0.45.0" = Except.error e) :=
  ⟨trivy_c7_amended.2.1 "Version: 1.2.3"
     ['V', 'e', 'r', 's', 'i', 'o', 'n', ':'] ['1', '.', '2', '.', '3'] (by decide),
   trivy_c7_amended.2.2 "Version:  0.45.0" (by decide)⟩

theorem checked_path_of_mem {rs : RawResults} {out : List CheckResult} {r : CheckResult}
    (h : parse_results rs = Except.ok out) (hr : r ∈ out) :
    r.checked_path = (get_checked_path r.scanner_check_id).1 := by
  obtain ⟨files, -, hout, -⟩ := parse_results_ok h
  rw [hout] at hr
  rcases List.mem_flatten.mp hr with ⟨l, hl, hrl⟩
  rcases List.mem_map.mp hl with ⟨f, hf, rfl⟩
  rcases List.mem_map.mp hrl with ⟨m, hm, rfl⟩
  rfl

/-- C8: `checked_path` is a pure function of `scanner_check_id` alone — any
two records emitted by any (possibly different) successful `parse_results`
runs that share the scanner-native rule id carry equal `checked_path`
fields, whatever the surrounding file or the other finding attributes. -/
theorem trivy_c8_checked_path_pure :
    ∀ (rs1 rs2 : RawResults) (out1 out2 : List CheckResult) (r1 r2 : CheckResult),
      parse_results rs1 = Except.ok out1 → parse_results rs2 = Except.ok out2 →
      r1 ∈ out1 → r2 ∈ out2 → r1.scanner_check_id = r2.scanner_check_id →
      r1.checked_path = r2.checked_path := by
  intro rs1 rs2 out1 out2 r1 r2 h1 h2 hr1 hr2 hid
  rw [checked_path_of_mem h1 hr1, checked_path_of_mem h2 hr2, hid]

/-- First concrete input for the C8 witness. -/
def c8_input1 : RawResults :=
  RawResults.mk (some
    [RawFileResult.mk (some "POD-001-1.yaml") (some
      [RawMisconfig.mk (some "KSV001") (some "title A") (some "FAIL") (some "HIGH")
        (some "descA") (some "msgA")])])

/-- Second concrete input for the C8 witness: same scanner-native id, every
other attribute (target, title, status, severity, description, message)
different. -/
def c8_input2 : RawResults :=
  RawResults.mk (some
    [RawFileResult.mk (some "other-dir/POD-002-x.json") (some
      [RawMisconfig.mk (some "KSV001") (some "title B") (some "PASS") (some "LOW")
        (some "descB") (some "msgB")])])

/-- The single record `c8_input1` parses to. -/
def c8_record1 : CheckResult :=
  CheckResult.mk (some "POD-001-1") "POD-001-1" "KSV001" "title A"
    ".spec.containers[].securityContext.allowPrivilegeEscalation" "HIGH"
    CheckStatus.Alert "descA" "msgA"

/-- The single record `c8_input2` parses to. -/
def c8_record2 : CheckResult :=
  CheckResult.mk (some "POD-002") "POD-002-x" "KSV001" "title B"
    ".spec.containers[].securityContext.allowPrivilegeEscalation" "LOW"
    CheckStatus.Pass "descB" "msgB"

/-- C8 witness: the purity theorem applied to two records from two different
runs sharing only the scanner-native id. -/
theorem trivy_c8_witness : c8_record1.checked_path = c8_record2.checked_path :=
  trivy_c8_checked_path_pure c8_input1 c8_input2 [c8_record1] [c8_record2]
    c8_record1 c8_record2 rfl rfl (List.mem_singleton.mpr rfl)
    (List.mem_singleton.mpr rfl) rfl

/-- The single element of the `KSV002` entry's path list: the two adjacent
string literals of `trivy.py` lines 13-14 fused into one string by Python's
implicit literal concatenation (no comma separates them). -/
def ksv002_fused_path : String :=
  ".metadata.annotations.container.apparmor.security.beta.kubernetes.io.metadata.annotations[container.apparmor.security.beta.kubernetes.io]"

/-- C9: the `KSV002` table entry holds exactly one path (the fused string),
so `get_checked_path "KSV002"` returns that single concatenated string, which
contains no `|` delimiter. -/
theorem trivy_c9_ksv002_fused :
    List.lookup "KSV002" CHECK_MAPPING =
      some (CheckCategory.Workload, PyPaths.list [ksv002_fused_path]) ∧
    get_checked_path "KSV002" = (ksv002_fused_path, 0) ∧
    ksv002_fused_path.toList.all (fun c => c ≠ '|') = true :=
  ⟨by decide, by decide, by decide⟩

/-- Concrete input for the C10 counterexample: one file entry with neither a
`Target` nor a `Misconfigurations` key. -/
def c10_no_target_no_findings : RawResults :=
  RawResults.mk (some [RawFileResult.mk none none])

/-- C10 counterexample: a file entry with no `Misconfigurations` key and no
`Target` key is processed successfully (the empty result list is returned),
refuting the claim that an absent `Target` always raises a lookup error. -/
theorem trivy_c10_counterexample :
    parse_results c10_no_target_no_findings = Except.ok [] := rfl

/-- Concrete input for the C10 amended theorem: a file entry with a finding
but no `Target` key. -/
def c10_no_target_with_finding : RawResults :=
  RawResults.mk (some
    [RawFileResult.mk none (some
      [RawMisconfig.mk (some "KSV001") (some "t") (some "FAIL") (some "H") (some "d") (some "m")])])

/-- C10 (amended): the top-level `Results` key is unconditionally required —
its absence raises a lookup error. The `Target` key of a file entry is
subscripted only inside the per-finding loop: on every successful run every
file entry that carries at least one finding has a `Target` key, an entry
with a finding but no `Target` raises, and an entry with no findings and no
`Target` passes through silently. -/
theorem trivy_c10_amended :
    (∀ rs : RawResults, rs.Results = none →
       parse_results rs = Except.error "KeyError: Results") ∧
    (∀ (rs : RawResults) (files : List RawFileResult) (out : List CheckResult),
       parse_results rs = Except.ok out → rs.Results = some files →
       ∀ f ∈ files, f.Misconfigurations.getD [] ≠ [] → f.Target.isSome = true) ∧
    parse_results c10_no_target_with_finding = Except.error "KeyError: Target" ∧
    parse_results c10_no_target_no_findings = Except.ok [] := by
  refine ⟨?_, ?_, rfl, rfl⟩
  · intro rs h
    unfold parse_results
    rw [h]
    rfl
  · intro rs files out h hR f hf hms
    obtain ⟨files2, hR2, -, haux⟩ := parse_results_ok h
    rw [hR] at hR2
    obtain rfl : files = files2 := Option.some.inj hR2
    obtain ⟨l, hl⟩ := parse_results_aux_ok_mem haux f hf
    have hl' : parse_file_aux f (f.Misconfigurations.getD []) = Except.ok l := hl
    rcases hms2 : f.Misconfigurations.getD [] with _ | ⟨m, ms⟩
    · exact absurd hms2 hms
    · rw [hms2] at hl'
      exact parse_file_aux_ok_target hl'

/-- Concrete input for the C10 witness: one file entry with a `Target` and a
single finding. -/
def c10_with_target : RawResults :=
  RawResults.mk (some
    [RawFileResult.mk (some "POD-004-1.yaml") (some
      [RawMisconfig.mk (some "KSV003") (some "t") (some "FAIL") (some "H") (some "d") (some "m")])])

/-- C10 witness: the amended theorem applied at a missing-`Results` input and
at a concrete successful run. -/
theorem trivy_c10_witness :
    parse_results (RawResults.mk none) = Except.error "KeyError: Results" ∧
    ((RawFileResult.mk (some "POD-004-1.yaml") (some
        [RawMisconfig.mk (some "KSV003") (some "t") (some "FAIL") (some "H") (some "d") (some "m")])).Misconfigurations.getD [] ≠ [] →
      (RawFileResult.mk (some "POD-004-1.yaml") (some
        [RawMisconfig.mk (some "KSV003") (some "t") (some "FAIL") (some "H") (some "d") (some "m")])).Target.isSome = true) :=
  ⟨trivy_c10_amended.1 (RawResults.mk none) rfl,
   trivy_c10_amended.2.1 c10_with_target
     [RawFileResult.mk (some "POD-004-1.yaml") (some
       [RawMisconfig.mk (some "KSV003") (some "t") (some "FAIL") (some "H") (some "d") (some "m")])]
     [recordOf
       (RawFileResult.mk (some "POD-004-1.yaml") (some
         [RawMisconfig.mk (some "KSV003") (some "t") (some "FAIL") (some "H") (some "d") (some "m")]))
       (RawMisconfig.mk (some "KSV003") (some "t") (some "FAIL") (some "H") (some "d") (some "m"))]
     rfl rfl
     (RawFileResult.mk (some "POD-004-1.yaml") (some
       [RawMisconfig.mk (some "KSV003") (some "t") (some "FAIL") (some "H") (some "d") (some "m")]))
     (List.mem_singleton.mpr rfl)⟩

/-- One `-\d+` group of the pattern, stated declaratively. -/
def groupWF (g : List Char) : Prop :=
  ∃ ds, g = '-' :: ds ∧ ds ≠ [] ∧ ∀ c ∈ ds, c.isDigit = true

/-- The language of the claim's pattern, stated declaratively: a nonempty run
of word characters followed by one or more repetitions of `-` plus a nonempty
digit run (`\w+(?:-\d+)+`). -/
def shapeSpec (cs : List Char) : Prop :=
  ∃ w gs, cs = w ++ (gs : List (List Char)).flatten ∧ w ≠ [] ∧
    (∀ c ∈ w, isWordChar c = true) ∧ gs ≠ [] ∧ ∀ g ∈ gs, groupWF g

/-- What acceptance from state 1 means: `\w*(?:-\d+)+`. -/
def specFrom1 (cs : List Char) : Prop :=
  ∃ w gs, cs = w ++ (gs : List (List Char)).flatten ∧
    (∀ c ∈ w, isWordChar c = true) ∧ gs ≠ [] ∧ ∀ g ∈ gs, groupWF g

/-- What acceptance from state 2 means: `\d+(?:-\d+)*`. -/
def specFrom2 (cs : List Char) : Prop :=
  ∃ ds gs, cs = ds ++ (gs : List (List Char)).flatten ∧ ds ≠ [] ∧
    (∀ c ∈ ds, c.isDigit = true) ∧ ∀ g ∈ gs, groupWF g

/-- What acceptance from state 3 means: `\d*(?:-\d+)*`. -/
def specFrom3 (cs : List Char) : Prop :=
  ∃ ds gs, cs = ds ++ (gs : List (List Char)).flatten ∧
    (∀ c ∈ ds, c.isDigit = true) ∧ ∀ g ∈ gs, groupWF g

theorem shapeDFA_word_run {w rest : List Char} (h : ∀ c ∈ w, isWordChar c = true) :
    shapeDFA (w ++ rest) 1 = shapeDFA rest 1 := by
  induction w with
  | nil => rfl
  | cons c w ih =>
    have hc : isWordChar c = true := h c (List.mem_cons_self c w)
    have hrec := ih (fun x hx => h x (List.mem_cons_of_mem c hx))
    simp [shapeDFA, stepDFA, hc, hrec]

theorem shapeDFA_digit_run {ds rest : List Char} (h : ∀ c ∈ ds, c.isDigit = true) :
    shapeDFA (ds ++ rest) 3 = shapeDFA rest 3 := by
  induction ds with
  | nil => rfl
  | cons c ds ih =>
    have hc : c.isDigit = true := h c (List.mem_cons_self c ds)
    have hrec := ih (fun x hx => h x (List.mem_cons_of_mem c hx))
    simp [shapeDFA, stepDFA, hc, hrec]

theorem shapeDFA_group {g rest : List Char} (hg : groupWF g) (st : Nat)
    (hst : st = 1 ∨ st = 3) : shapeDFA (g ++ rest) st = shapeDFA rest 3 := by
  obtain ⟨ds, rfl, hne, hds⟩ := hg
  rcases ds with _ | ⟨d, ds⟩
  · exact absurd rfl hne
  · have hd : d.isDigit = true := hds d (List.mem_cons_self d ds)
    have hds' : ∀ c ∈ ds, c.isDigit = true := fun c hc => hds c (List.mem_cons_of_mem d hc)
    have hdash1 : isWordChar '-' = false := by decide
    have hdash2 : ('-' : Char).isDigit = false := by decide
    rcases hst with rfl | rfl
    · simp [shapeDFA, stepDFA, hdash1, hd, shapeDFA_digit_run hds']
    · simp [shapeDFA, stepDFA, hdash2, hd, shapeDFA_digit_run hds']

theorem shapeDFA_groups {gs : List (List Char)} (hne : gs ≠ [])
    (hgs : ∀ g ∈ gs, groupWF g) (st : Nat) (hst : st = 1 ∨ st = 3) :
    shapeDFA gs.flatten st = true := by
  induction gs generalizing st with
  | nil => exact absurd rfl hne
  | cons g gs ih =>
    have hg := hgs g (List.mem_cons_self g gs)
    rcases gs with _ | ⟨g2, gs2⟩
    · rw [List.flatten_cons, List.flatten_nil, shapeDFA_group hg st hst]
      rfl
    · rw [List.flatten_cons, shapeDFA_group hg st hst]
      exact ih (by simp) (fun x hx => hgs x (List.mem_cons_of_mem g hx)) 3 (Or.inr rfl)

theorem shapeDFA_of_spec {cs : List Char} (h : shapeSpec cs) : shapeDFA cs 0 = true := by
  obtain ⟨w, gs, rfl, hwne, hw, hgne, hgs⟩ := h
  rcases w with _ | ⟨c, w⟩
  · exact absurd rfl hwne
  · have hc : isWordChar c = true := hw c (List.mem_cons_self c w)
    have hw' : ∀ x ∈ w, isWordChar x = true := fun x hx => hw x (List.mem_cons_of_mem c hx)
    rw [List.cons_append]
    simp only [shapeDFA, stepDFA, hc]
    simp only [if_pos rfl, if_true]
    rw [shapeDFA_word_run hw']
    exact shapeDFA_groups hgne hgs 1 (Or.inl rfl)

theorem shapeDFA_sound : ∀ (cs : List Char) (st : Nat), shapeDFA cs st = true →
    (st = 0 → shapeSpec cs) ∧ (st = 1 → specFrom1 cs) ∧
    (st = 2 → specFrom2 cs) ∧ (st = 3 → specFrom3 cs) := by
  intro cs
  induction cs with
  | nil =>
    intro st h
    have hst : st = 3 := by simpa [shapeDFA] using h
    subst hst
    refine ⟨fun h0 => absurd h0 (by decide), fun h1 => absurd h1 (by decide),
            fun h2 => absurd h2 (by decide), fun _ => ?_⟩
    exact ⟨[], [], rfl, by simp, by simp⟩
  | cons c rest ih =>
    intro st h
    simp only [shapeDFA] at h
    cases hst : stepDFA st c with
    | none => rw [hst] at h; exact absurd h (by simp)
    | some st2 =>
      rw [hst] at h
      have IH := ih st2 h
      refine ⟨?_, ?_, ?_, ?_⟩
      · rintro rfl
        cases hw : isWordChar c with
        | false => simp [stepDFA, hw] at hst
        | true =>
          have h2 : st2 = 1 := by simp [stepDFA, hw] at hst; omega
          subst h2
          obtain ⟨w, gs, heq, hwall, hgne, hgs⟩ := IH.2.1 rfl
          refine ⟨c :: w, gs, by rw [heq, List.cons_append], by simp, ?_, hgne, hgs⟩
          intro x hx
          rcases List.mem_cons.mp hx with rfl | hx2
          · exact hw
          · exact hwall x hx2
      · rintro rfl
        cases hw : isWordChar c with
        | true =>
          have h2 : st2 = 1 := by simp [stepDFA, hw] at hst; omega
          subst h2
          obtain ⟨w, gs, heq, hwall, hgne, hgs⟩ := IH.2.1 rfl
          refine ⟨c :: w, gs, by rw [heq, List.cons_append], ?_, hgne, hgs⟩
          intro x hx
          rcases List.mem_cons.mp hx with rfl | hx2
          · exact hw
          · exact hwall x hx2
        | false =>
          by_cases hd : c = '-'
          · have hwd : isWordChar '-' = false := by decide
            have h2 : st2 = 2 := by simp [stepDFA, hw, hd, hwd] at hst; omega
            subst h2
            subst hd
            obtain ⟨ds, gs, heq, hdne, hdall, hgs⟩ := IH.2.2.1 rfl
            refine ⟨[], ('-' :: ds) :: gs, by simp [List.flatten_cons, heq], by simp, by simp, ?_⟩
            intro g hg
            rcases List.mem_cons.mp hg with rfl | hg2
            · exact ⟨ds, rfl, hdne, hdall⟩
            · exact hgs g hg2
          · simp [stepDFA, hw, hd] at hst
      · rintro rfl
        cases hdig : c.isDigit with
        | true =>
          have h2 : st2 = 3 := by simp [stepDFA, hdig] at hst; omega
          subst h2
          obtain ⟨ds, gs, heq, hdall, hgs⟩ := IH.2.2.2 rfl
          refine ⟨c :: ds, gs, by rw [heq, List.cons_append], by simp, ?_, hgs⟩
          intro x hx
          rcases List.mem_cons.mp hx with rfl | hx2
          · exact hdig
          · exact hdall x hx2
        | false => simp [stepDFA, hdig] at hst
      · rintro rfl
        cases hdig : c.isDigit with
        | true =>
          have h2 : st2 = 3 := by simp [stepDFA, hdig] at hst; omega
          subst h2
          obtain ⟨ds, gs, heq, hdall, hgs⟩ := IH.2.2.2 rfl
          refine ⟨c :: ds, gs, by rw [heq, List.cons_append], ?_, hgs⟩
          intro x hx
          rcases List.mem_cons.mp hx with rfl | hx2
          · exact hdig
          · exact hdall x hx2
        | false =>
          by_cases hd : c = '-'
          · have hdd : ('-' : Char).isDigit = false := by decide
            have h2 : st2 = 2 := by simp [stepDFA, hdig, hd, hdd] at hst; omega
            subst h2
            subst hd
            obtain ⟨ds, gs, heq, hdne, hdall, hgs⟩ := IH.2.2.1 rfl
            refine ⟨[], ('-' :: ds) :: gs, by simp [List.flatten_cons, heq], by simp, ?_⟩
            intro g hg
            rcases List.mem_cons.mp hg with rfl | hg2
            · exact ⟨ds, rfl, hdne, hdall⟩
            · exact hgs g hg2
          · simp [stepDFA, hdig, hd] at hst

theorem searchAux_some {cs : List Char} : ∀ (st pos b : Nat),
    ∃ m, searchAux cs st pos (some b) = some m := by
  induction cs with
  | nil => intro st pos b; exact ⟨b, rfl⟩
  | cons c rest ih =>
    intro st pos b
    simp only [searchAux]
    cases hst : stepDFA st c with
    | none => exact ⟨b, rfl⟩
    | some st2 =>
      cases h3 : st2 == 3 with
      | true => simpa [h3] using ih st2 (pos + 1) (pos + 1)
      | false => simpa [h3] using ih st2 (pos + 1) b

theorem searchAux_sound {cs : List Char} : ∀ (st pos : Nat) (best : Option Nat) (n : Nat),
    searchAux cs st pos best = some n →
    best = some n ∨
      ∃ k, 1 ≤ k ∧ k ≤ cs.length ∧ n = pos + k ∧ shapeDFA (cs.take k) st = true := by
  induction cs with
  | nil => intro st pos best n h; exact Or.inl h
  | cons c rest ih =>
    intro st pos best n h
    simp only [searchAux] at h
    cases hst : stepDFA st c with
    | none => rw [hst] at h; exact Or.inl h
    | some st2 =>
      rw [hst] at h
      rcases ih st2 (pos + 1) _ n h with hbest | ⟨k, hk1, hk2, hkn, hacc⟩
      · cases h3 : st2 == 3 with
        | true =>
          simp only [h3, if_true] at hbest
          have hn : n = pos + 1 := (Option.some.inj hbest).symm
          refine Or.inr ⟨1, le_refl 1, by simp, hn, ?_⟩
          have h3' : st2 = 3 := by simpa using h3
          simp [shapeDFA, hst, h3']
        | false =>
          simp only [h3, if_false] at hbest
          exact Or.inl hbest
      · refine Or.inr ⟨k + 1, by omega, by simp; omega, by omega, ?_⟩
        rw [List.take_succ_cons]
        simp [shapeDFA, hst, hacc]

theorem searchAux_complete {cs : List Char} : ∀ (st pos : Nat) (best : Option Nat) (k : Nat),
    1 ≤ k → k ≤ cs.length → shapeDFA (cs.take k) st = true →
    ∃ m, searchAux cs st pos best = some m := by
  induction cs with
  | nil =>
    intro st pos best k hk1 hk2 hacc
    simp at hk2
    omega
  | cons c rest ih =>
    intro st pos best k hk1 hk2 hacc
    obtain ⟨k2, rfl⟩ : ∃ k2, k = k2 + 1 := ⟨k - 1, by omega⟩
    rw [List.take_succ_cons] at hacc
    simp only [shapeDFA] at hacc
    cases hst : stepDFA st c with
    | none => rw [hst] at hacc; exact absurd hacc (by simp)
    | some st2 =>
      rw [hst] at hacc
      simp only [searchAux]
      rw [hst]
      by_cases hk0 : k2 = 0
      · subst hk0
        have h3 : st2 = 3 := by simpa [shapeDFA] using hacc
        subst h3
        simpa using searchAux_some 3 (pos + 1) (pos + 1)
      · have hlen : k2 ≤ rest.length := by simp at hk2; omega
        exact ih st2 (pos + 1) _ k2 (by omega) hlen hacc

theorem check_id_search_some {s t : String} (h : check_id_search s = some t) :
    (∃ r, t.toList ++ r = s.toList) ∧ shapeSpec t.toList := by
  unfold check_id_search at h
  cases hn : searchAux s.toList 0 0 none with
  | none => rw [hn] at h; exact Option.noConfusion h
  | some n =>
    rw [hn] at h
    have ht : t = String.mk (s.toList.take n) := (Option.some.inj h).symm
    rcases searchAux_sound 0 0 none n hn with hbest | ⟨k, hk1, hk2, hkn, hacc⟩
    · exact Option.noConfusion hbest
    · have hnk : n = k := by omega
      subst hnk
      constructor
      · rw [ht]
        exact ⟨s.toList.drop n, List.take_append_drop n s.toList⟩
      · rw [ht]
        show shapeSpec (s.toList.take n)
        exact (shapeDFA_sound (s.toList.take n) 0 hacc).1 rfl

theorem check_id_search_none {s : String} (h : check_id_search s = none) :
    ∀ u r : List Char, u ++ r = s.toList → ¬ shapeSpec u := by
  intro u r hur hspec
  have hacc : shapeDFA u 0 = true := shapeDFA_of_spec hspec
  have hune : u ≠ [] := by
    obtain ⟨w, gs, rfl, hwne, -, -, -⟩ := hspec
    rcases w with _ | ⟨a, w⟩
    · exact absurd rfl hwne
    · simp
  have htake : s.toList.take u.length = u := by
    rw [← hur]
    simp
  have hlen : u.length ≤ s.toList.length := by
    rw [← hur]
    simp
  have h1 : 1 ≤ u.length := by
    rcases u with _ | ⟨a, u⟩
    · exact absurd rfl hune
    · simp
  obtain ⟨m, hm⟩ :=
    searchAux_complete 0 0 none u.length h1 hlen (by rw [htake]; exact hacc)
  unfold check_id_search at h
  rw [hm] at h
  exact Option.noConfusion h

/-- C1 counterexample: the object name `"KSV017-test"` does not match the
pattern — after the `-` comes `test`, not a digit run, and the pattern
requires at least one `-` plus digit-run group — so the extractor returns an
absent id, not the claimed `"KSV017"`. -/
theorem trivy_c1_counterexample :
    check_id_search "KSV017-test" = none ∧ check_id_search "KSV017-test" ≠ some "KSV017" :=
  ⟨rfl, by decide⟩

/-- C1 (amended): the extractor matches a run of word characters anchored at
the start of the string followed by one or more repetitions of `-` plus a
digit run, returning the matched leading token (a prefix of the input in the
pattern's language) and absent exactly when no prefix of the input is in the
language. Consequently `"KSV017-test"` yields an absent id (its suffix
`-test` carries no digit run), as does `"deployment"`; a name such as
`"POD-016-2-test"` yields `"POD-016-2"`. -/
theorem trivy_c1_amended :
    check_id_search "KSV017-test" = none ∧
    check_id_search "deployment" = none ∧
    check_id_search "POD-016-2-test" = some "POD-016-2" ∧
    (∀ s t : String, check_id_search s = some t →
       (∃ r, t.toList ++ r = s.toList) ∧ shapeSpec t.toList) ∧
    (∀ s : String, check_id_search s = none →
       ∀ u r : List Char, u ++ r = s.toList → ¬ shapeSpec u) := by
  refine ⟨rfl, rfl, rfl, ?_, ?_⟩
  · intro s t h
    exact check_id_search_some h
  · intro s h
    exact check_id_search_none h

/-- C1 witness: the amended theorem applied at the concrete name
`"POD-016-2-test"`, whose extracted token `"POD-016-2"` is a prefix in the
pattern's language. -/
theorem trivy_c1_witness :
    (∃ r, "POD-016-2".toList ++ r = "POD-016-2-test".toList) ∧
      shapeSpec "POD-016-2".toList :=
  trivy_c1_amended.2.2.2.1 "POD-016-2-test" "POD-016-2" rfl
